import Mathlib

/-!
Verification development for the storage temperature monitor
(`working12.py` / `working18.py`): a shallow embedding of its sensor
provider, sample aggregator, alert engine, email scheduler, settings
update and daily log manager, with theorems checking the stated
properties of each subsystem.

Modelling conventions:
* temperatures and clock times are rationals (`ℚ`);
* a Python `dict` built by iterated assignment is an association list
  with Python's insert-or-overwrite semantics (`dictInsert`);
* `None`-returning Python functions return `Option` values;
* external WMI state (sensor list, hardware node list, availability
  flag) is passed explicitly as input data.
-/

namespace TempMonitor

/-- Substring test on character lists: `subOccurs pat hay` is true iff
`pat` occurs contiguously inside `hay` (Python's `pat in hay`). -/
def subOccurs (pat : List Char) : List Char → Bool
  | [] => pat.isEmpty
  | c :: rest => pat.isPrefixOf (c :: rest) || subOccurs pat rest

/-- Python's `pat in hay` on strings. -/
def strContains (hay pat : String) : Bool :=
  subOccurs pat.toList hay.toList

/-- Python's `str.lower()`, modelled per character (the keyword vocabulary
is plain ASCII, for which this agrees with Python). -/
def lowerStr (s : String) : String :=
  String.mk (s.data.map Char.toLower)

/-- The storage keyword vocabulary of `StorageTemperatureReader._is_storage_sensor`. -/
def storage_keywords : List String :=
  ["hdd", "ssd", "disk", "drive", "nvme", "sata",
   "hard disk", "solid state", "samsung", "crucial",
   "western digital", "seagate", "kingston", "adata",
   "sandisk", "intel ssd", "toshiba", "hitachi"]

/-- Embeds `StorageTemperatureReader._is_storage_sensor`: a temperature sensor is
storage-relevant when its name contains "temperature" and either its parent
name or its own name contains a storage keyword. -/
def is_storage_sensor (sensor_name parent_name : String) : Bool :=
  let sensor_lower := lowerStr sensor_name
  let parent_lower := lowerStr parent_name
  if strContains sensor_lower "temperature" then
    storage_keywords.any (fun kw => strContains parent_lower kw) ||
    storage_keywords.any (fun kw => strContains sensor_lower kw)
  else
    false

/-- A raw WMI sensor row: `SensorType`, `Name`, `Value` (None-able) and the
`Parent` attribute (`none` models an object without that attribute). -/
structure WmiSensor where
  sensorType : String
  name : String
  value : Option ℚ
  parent : Option String
deriving DecidableEq, Repr

/-- A collected temperature sensor as built by `get_storage_temperatures`:
name, float value and parent (defaulted to "Unknown"). -/
structure TempSensor where
  name : String
  value : ℚ
  parent : String
deriving DecidableEq, Repr

/-- The `all_temp_sensors` collection loop of `get_storage_temperatures`:
keep sensors with `SensorType == "Temperature"` and a non-None value,
defaulting a missing parent to "Unknown". -/
def all_temp_sensors (sensors : List WmiSensor) : List TempSensor :=
  sensors.filterMap fun s =>
    match s.value with
    | some v =>
        if s.sensorType = "Temperature" then
          some { name := s.name, value := v, parent := s.parent.getD "Unknown" }
        else none
    | none => none

/-- Device key chosen for a matched sensor: the parent name when truthy and
not "Unknown", otherwise the sensor's own name. -/
def device_name_of (s : TempSensor) : String :=
  if s.parent ≠ "" ∧ s.parent ≠ "Unknown" then s.parent else s.name

/-- Python-dict assignment `d[k] = v` on an association list: overwrite the
value in place if the key exists, else append the new pair. -/
def dictInsert (d : List (String × ℚ)) (k : String) (v : ℚ) : List (String × ℚ) :=
  match d with
  | [] => [(k, v)]
  | (k', v') :: rest => if k' = k then (k, v) :: rest else (k', v') :: dictInsert rest k v

/-- Python-dict lookup `d[k]` / `d.get(k)` on an association list. -/
def dictLookup (d : List (String × ℚ)) (k : String) : Option ℚ :=
  match d with
  | [] => none
  | (k', v) :: rest => if k' = k then some v else dictLookup rest k

/-- Key list of an association-list dict. -/
def dictKeys (d : List (String × ℚ)) : List String :=
  d.map Prod.fst

/-- Calibration constant subtracted on the primary enumeration path
(`adjusted_temp = raw_temp - 13`). -/
def PRIMARY_CALIBRATION : ℚ := 13

/-- Calibration constant subtracted on the alternative/fallback path
(`adjusted_temp = raw_temp - 10`). -/
def FALLBACK_CALIBRATION : ℚ := 10

/-- The storage sensors retained by the primary filter of
`get_storage_temperatures`. -/
def storage_sensors (sensors : List WmiSensor) : List TempSensor :=
  (all_temp_sensors sensors).filter fun s => is_storage_sensor s.name s.parent

/-- The `storage_temps` dict built by the primary path of
`get_storage_temperatures`: per matched sensor, assign
`storage_temps[device_name] = raw - 13` in enumeration order. -/
def primary_storage_temps (sensors : List WmiSensor) : List (String × ℚ) :=
  (storage_sensors sensors).foldl
    (fun d s => dictInsert d (device_name_of s) (s.value - PRIMARY_CALIBRATION)) []

/-- Keyword vocabulary of `_find_storage_temps_alternative`. -/
def alt_storage_keywords : List String :=
  ["ssd", "hdd", "disk", "drive", "samsung", "crucial", "wd", "seagate"]

/-- The storage hardware nodes matched by `_find_storage_temps_alternative`
(a node whose `Name` is None enters as the empty string). -/
def alt_storage_devices (hardware : List String) : List String :=
  hardware.filter fun hw => alt_storage_keywords.any fun kw => strContains (lowerStr hw) kw

/-- Embeds `StorageTemperatureReader._find_storage_temps_alternative`: re-scan the
raw sensors for temperature sensors whose `Parent` attribute exists and
names a matched storage hardware node, assigning `raw - 10` per parent;
return the dict when non-empty, else None. -/
def find_storage_temps_alternative (sensors : List WmiSensor) (hardware : List String) :
    Option (List (String × ℚ)) :=
  let storage_devices := alt_storage_devices hardware
  let storage_temps := sensors.foldl
    (fun d s =>
      match s.value, s.parent with
      | some v, some p =>
          if s.sensorType = "Temperature" ∧ p ∈ storage_devices then
            dictInsert d p (v - FALLBACK_CALIBRATION)
          else d
      | _, _ => d)
    []
  if storage_temps.isEmpty then none else some storage_temps

/-- Embeds `StorageTemperatureReader.get_storage_temperatures`: None when
OpenHardwareMonitor is unavailable; otherwise the primary dict when
non-empty, else the alternative strategy. -/
def get_storage_temperatures (ohm_available : Bool) (sensors : List WmiSensor)
    (hardware : List String) : Option (List (String × ℚ)) :=
  if !ohm_available then none
  else
    let storage_temps := primary_storage_temps sensors
    if !storage_temps.isEmpty then some storage_temps
    else find_storage_temps_alternative sensors hardware

/-- Sum of the values of a dict (`sum(storage_temps.values())`). -/
def dictValuesSum (d : List (String × ℚ)) : ℚ :=
  (d.map Prod.snd).sum

/-- Embeds `max(storage_temps.values())`: left fold of binary max over the values. -/
def dictValuesMax (d : List (String × ℚ)) : Option ℚ :=
  match d with
  | [] => none
  | p :: rest => some (rest.foldl (fun m q => max m q.2) p.2)

/-- Embeds `max(storage_temps, key=storage_temps.get)`: first key attaining the
maximal value (Python's `max` keeps the earlier element on ties). -/
def dictArgMax (d : List (String × ℚ)) : Option String :=
  match d with
  | [] => none
  | p :: rest => some ((rest.foldl (fun best q => if best.2 < q.2 then q else best) p).1)

/-- Embeds `StorageTemperatureReader.get_average_storage_temperature`: fresh sample,
then `sum(values)/len` when the dict is truthy, else None. -/
def get_average_storage_temperature (ohm_available : Bool) (sensors : List WmiSensor)
    (hardware : List String) : Option ℚ :=
  match get_storage_temperatures ohm_available sensors hardware with
  | some storage_temps =>
      if storage_temps.isEmpty then none
      else some (dictValuesSum storage_temps / storage_temps.length)
  | none => none

/-- Embeds `StorageTemperatureReader.get_max_storage_temperature`: fresh sample,
then the maximal value when the dict is truthy, else None. -/
def get_max_storage_temperature (ohm_available : Bool) (sensors : List WmiSensor)
    (hardware : List String) : Option ℚ :=
  match get_storage_temperatures ohm_available sensors hardware with
  | some storage_temps =>
      if storage_temps.isEmpty then none else dictValuesMax storage_temps
  | none => none

/-- The `max_device` computed alongside the maximum in
`get_max_storage_temperature` (the hottest device). -/
def get_max_storage_device (ohm_available : Bool) (sensors : List WmiSensor)
    (hardware : List String) : Option String :=
  match get_storage_temperatures ohm_available sensors hardware with
  | some storage_temps =>
      if storage_temps.isEmpty then none else dictArgMax storage_temps
  | none => none

/-! ## Alert engine (`TemperatureMonitor.monitor_temperature`, alert block) -/

/-- Alert-relevant state of `TemperatureMonitor`: the single shared
`last_warning_time` stamp and the `warning_cooldown` (30 s). -/
structure AlertState where
  last_warning_time : ℚ
  warning_cooldown : ℚ
deriving DecidableEq, Repr

/-- Default cooldown `self.warning_cooldown = 30`. -/
def WARNING_COOLDOWN : ℚ := 30

/-- The alert block of one iteration of `monitor_temperature`, given the
thresholds, the `alert_monitoring_active` flag, the current absolute time
and the sampled max temperature. Returns the next alert state and whether
a desktop notification (plus sound and, in `working18`, a log write) was
dispatched this cycle. -/
def alert_step (warning_temp critical_temp : ℚ) (alert_monitoring_active : Bool)
    (st : AlertState) (now max_temp : ℚ) : AlertState × Bool :=
  if alert_monitoring_active then
    if max_temp ≥ critical_temp then
      if now - st.last_warning_time > st.warning_cooldown then
        ({ st with last_warning_time := now }, true)
      else (st, false)
    else if max_temp ≥ warning_temp then
      if now - st.last_warning_time > st.warning_cooldown then
        ({ st with last_warning_time := now }, true)
      else (st, false)
    else (st, false)
  else (st, false)

/-- Run the alert block over a sequence of (time, sampled max) cycles,
collecting the notification flags in order. -/
def alert_run (warning_temp critical_temp : ℚ) (alert_monitoring_active : Bool)
    (st : AlertState) : List (ℚ × ℚ) → AlertState × List Bool
  | [] => (st, [])
  | (now, max_temp) :: rest =>
      let (st', fired) := alert_step warning_temp critical_temp alert_monitoring_active
        st now max_temp
      let (stFin, fires) := alert_run warning_temp critical_temp alert_monitoring_active st' rest
      (stFin, fired :: fires)

/-! ## Sample aggregator (`deque(maxlen=50)` history) -/

/-- Capacity of `temp_history` / `time_history` (`deque(maxlen=50)`). -/
def HISTORY_MAXLEN : Nat := 50

/-- Embeds `deque.append` with `maxlen=50`: when full, the oldest (leftmost)
entry is discarded. -/
def historyAppend {α : Type} (d : List α) (x : α) : List α :=
  if d.length < HISTORY_MAXLEN then d ++ [x] else d.tail ++ [x]

/-- The history after a whole sequence of poll-cycle appends, starting
from the empty deque. -/
def historyOfAppends {α : Type} (xs : List α) : List α :=
  xs.foldl historyAppend []

/-! ## Threshold settings (`TemperatureMonitor.update_settings`) -/

/-- The two persisted thresholds ({`warning_temp`, `critical_temp`}). -/
structure Settings where
  warning_temp : ℚ
  critical_temp : ℚ
deriving DecidableEq, Repr

/-- Embeds `TemperatureMonitor.update_settings`. The two entry strings enter as
`Option ℚ`: `none` models a string on which Python's `float()` raises
`ValueError` (non-numeric input). Returns the new settings plus whether
`save_settings` wrote the settings file. -/
def update_settings (st : Settings) (warningInput criticalInput : Option ℚ) :
    Settings × Bool :=
  match warningInput, criticalInput with
  | some new_warning, some new_critical =>
      if new_warning ≥ new_critical then (st, false)
      else ({ warning_temp := new_warning, critical_temp := new_critical }, true)
  | _, _ => (st, false)

/-! ## Email scheduler (`TemperatureMonitor.email_scheduler`) -/

/-- Email digest state: `last_email_time` and the running min/max window.
`min_temp = none` encodes `float('inf')` and `max_temp = none` encodes
`float('-inf')` (no reading observed since the last reset). -/
structure EmailState where
  last_email_time : ℚ
  min_temp : Option ℚ
  max_temp : Option ℚ
deriving DecidableEq, Repr

/-- The reporting interval `self.email_interval = 3600`. -/
def EMAIL_INTERVAL : ℚ := 3600

/-- One 30-second check of the `email_scheduler` loop body, given the
current time, whether `self.storage_temperatures` is truthy, and the
outcome the SMTP delivery would have (ignored by the scheduler's state
updates). Returns the next state and whether a send was attempted. -/
def email_scheduler_check (st : EmailState) (now : ℚ) (hasData sendSucceeds : Bool) :
    EmailState × Bool :=
  if now - st.last_email_time ≥ EMAIL_INTERVAL then
    if hasData then
      ({ last_email_time := now, min_temp := none, max_temp := none }, true)
    else
      ({ last_email_time := st.last_email_time, min_temp := none, max_temp := none }, false)
  else (st, false)

/-! ## Log manager (`LogManager`, `working18.py`) -/

/-- The daily log store: calendar dates are day numbers (`Nat`, ordered as
the `YYYY-MM-DD`-named files sort), and a date maps to the list of its
file's stripped non-empty lines, or `none` when no daily file exists. -/
def LogStore : Type := Nat → Option (List String)

/-- The persistence effect of `LogManager.log_temperature` on the store:
append the formatted entry line to the file of date `d` (created on
first write). -/
def logAppend (fs : LogStore) (d : Nat) (entry : String) : LogStore :=
  fun d' => if d' = d then some ((fs d').getD [] ++ [entry]) else fs d'

/-- Embeds `LogManager.get_logs_for_date_range`: walk the dates from
`current` up to `endDate` inclusive, concatenating the lines of each
existing daily file and skipping missing days. -/
def get_logs_for_date_range (fs : LogStore) (current endDate : Nat) : List String :=
  if current ≤ endDate then
    ((fs current).getD []) ++ get_logs_for_date_range fs (current + 1) endDate
  else []
termination_by endDate + 1 - current
decreasing_by omega

/-- The 5-line export header block plus separator written by
`LogManager.export_logs_to_file` ahead of the matched lines. -/
def exportHeader (startStr endStr exportedAt : String) : List String :=
  ["# Temperature Logs Export",
   "# Date Range: " ++ startStr ++ " to " ++ endStr,
   "# Exported on: " ++ exportedAt,
   "# Format: [TIMESTAMP] LOG_ENTRY",
   "# Source: Storage Temperature Monitor",
   String.mk (List.replicate 60 '=')]

/-- Embeds `LogManager.export_logs_to_file`: gather the range's lines; if none,
return `False` with no file written (modelled as `none`); otherwise the
written export file content (header block then the lines). -/
def export_logs_to_file (fs : LogStore) (startDate endDate : Nat)
    (startStr endStr exportedAt : String) : Option (List String) :=
  let logs := get_logs_for_date_range fs startDate endDate
  if logs.isEmpty then none
  else some (exportHeader startStr endStr exportedAt ++ logs)

/-- The log store with no daily files at all. -/
def emptyLogStore : LogStore := fun _ => none

/-! ## Concrete sample data used by the spec's worked examples -/

/-- A WMI sample whose adjusted per-device readings are
A ↦ 25.0, B ↦ 31.0, C ↦ 28.0 (raw 38/44/41 minus the 13 °C primary
calibration), matching the spec's average/max scenario. -/
def exampleSensors : List WmiSensor :=
  [{ sensorType := "Temperature", name := "HDD Temperature", value := some 38, parent := some "A" },
   { sensorType := "Temperature", name := "HDD Temperature", value := some 44, parent := some "B" },
   { sensorType := "Temperature", name := "HDD Temperature", value := some 41, parent := some "C" }]

/-- Daily log store holding entries for days 0 < 2 < 5 only (built by
three appends), used to witness the range round-trip. -/
def exLogStore : LogStore :=
  logAppend (logAppend (logAppend emptyLogStore 0 "alpha") 2 "beta") 5 "gamma"

/-! ## History deque lemmas and claim C3 -/

theorem historyOfAppends_append {α : Type} (xs : List α) (x : α) :
    historyOfAppends (xs ++ [x]) = historyAppend (historyOfAppends xs) x := by
  simp [historyOfAppends, List.foldl_append]

theorem historyOfAppends_eq_drop {α : Type} (xs : List α) :
    historyOfAppends xs = xs.drop (xs.length - HISTORY_MAXLEN) := by
  induction xs using List.reverseRecOn with
  | nil => rfl
  | append_singleton xs x ih =>
      rw [historyOfAppends_append, ih, historyAppend]
      have hm : HISTORY_MAXLEN = 50 := rfl
      have hlen : (xs ++ [x]).length = xs.length + 1 := by simp
      by_cases h : xs.length < 50
      · rw [if_pos (by rw [List.length_drop]; omega)]
        have h0 : xs.length - HISTORY_MAXLEN = 0 := by omega
        have h1 : (xs ++ [x]).length - HISTORY_MAXLEN = 0 := by omega
        rw [h0, h1, List.drop_zero, List.drop_zero]
      · rw [if_neg (by rw [List.length_drop]; omega)]
        rw [List.tail_drop, hlen,
          List.drop_append_of_le_length (by omega)]
        have harith : xs.length - HISTORY_MAXLEN + 1 = xs.length + 1 - HISTORY_MAXLEN := by
          omega
        rw [harith]

/-- C3: the temperature history is a fixed-capacity FIFO: after any
sequence of poll-cycle appends the deque holds the last at most 50
appended entries in order — hence never more than 50 entries — and once
51 entries have been appended the first (oldest) entry has been evicted. -/
theorem history_capacity_fifo {α : Type} (xs : List α) :
    (historyOfAppends xs).length ≤ HISTORY_MAXLEN ∧
    historyOfAppends xs = xs.drop (xs.length - HISTORY_MAXLEN) ∧
    (xs.length = HISTORY_MAXLEN + 1 → historyOfAppends xs = xs.tail) := by
  refine ⟨?_, historyOfAppends_eq_drop xs, ?_⟩
  · rw [historyOfAppends_eq_drop, List.length_drop]
    omega
  · intro h
    rw [historyOfAppends_eq_drop, h]
    simp [HISTORY_MAXLEN]

/-- Witness for C3: appending the 51 entries `0, …, 50` leaves the deque
holding exactly `1, …, 50` — the first entry has been evicted. -/
theorem history_capacity_fifo_witness :
    (List.range 51).length = HISTORY_MAXLEN + 1 ∧
    historyOfAppends (List.range 51) = (List.range 51).tail :=
  ⟨by decide, (history_capacity_fifo (List.range 51)).2.2 (by decide)⟩

/-! ## Settings update: claim C4 -/

/-- C4: a threshold update whose warning input is ≥ the critical input, or
whose warning or critical input is non-numeric, is rejected: the settings
are unchanged and the settings file is not written. -/
theorem update_settings_rejects_invalid (st : Settings) (warningInput criticalInput : Option ℚ)
    (h : warningInput = none ∨ criticalInput = none ∨
      ∃ w c, warningInput = some w ∧ criticalInput = some c ∧ w ≥ c) :
    update_settings st warningInput criticalInput = (st, false) := by
  rcases h with h | h | ⟨w, c, hw, hc, hwc⟩
  · subst h
    cases criticalInput <;> rfl
  · subst h
    cases warningInput <;> rfl
  · subst hw
    subst hc
    simp [update_settings, hwc]

/-- Witness for C4: the spec's example warning=30, critical=25 is rejected
and leaves the prior thresholds 27/30 unchanged with no file write. -/
theorem update_settings_rejects_invalid_witness :
    update_settings ⟨27, 30⟩ (some 30) (some 25) = (⟨27, 30⟩, false) :=
  update_settings_rejects_invalid ⟨27, 30⟩ (some 30) (some 25)
    (Or.inr (Or.inr ⟨30, 25, rfl, rfl, by norm_num⟩))

/-! ## Log manager lemmas and claims C5, C7 -/

theorem get_logs_of_gt (fs : LogStore) {s e : Nat} (h : e < s) :
    get_logs_for_date_range fs s e = [] := by
  rw [get_logs_for_date_range, if_neg (by omega)]

theorem get_logs_step (fs : LogStore) {s e : Nat} (h : s ≤ e) :
    get_logs_for_date_range fs s e =
      (fs s).getD [] ++ get_logs_for_date_range fs (s + 1) e := by
  rw [get_logs_for_date_range]
  rw [if_pos h]

theorem get_logs_single (fs : LogStore) (s : Nat) :
    get_logs_for_date_range fs s s = (fs s).getD [] := by
  rw [get_logs_step fs (le_refl s), get_logs_of_gt fs (Nat.lt_succ_self s), List.append_nil]

theorem get_logs_split_aux (fs : LogStore) :
    ∀ (k s m e : Nat), m - s = k → s ≤ m → m ≤ e →
      get_logs_for_date_range fs s e =
        get_logs_for_date_range fs s m ++ get_logs_for_date_range fs (m + 1) e := by
  intro k
  induction k with
  | zero =>
      intro s m e hk hsm hme
      have hms : m = s := by omega
      subst hms
      rw [get_logs_step fs hme, get_logs_single]
  | succ k ih =>
      intro s m e hk hsm hme
      have hse : s ≤ e := by omega
      rw [get_logs_step fs hse, get_logs_step fs hsm,
        ih (s + 1) m e (by omega) (by omega) hme, List.append_assoc]

theorem get_logs_split (fs : LogStore) {s m e : Nat} (hsm : s ≤ m) (hme : m ≤ e) :
    get_logs_for_date_range fs s e =
      get_logs_for_date_range fs s m ++ get_logs_for_date_range fs (m + 1) e :=
  get_logs_split_aux fs (m - s) s m e rfl hsm hme

theorem get_logs_none_upto (fs : LogStore) :
    ∀ (k s e : Nat), e - s = k → s ≤ e →
      (∀ d, s ≤ d → d < e → (fs d).getD [] = []) →
      get_logs_for_date_range fs s e = (fs e).getD [] := by
  intro k
  induction k with
  | zero =>
      intro s e hk hse hnone
      have hes : e = s := by omega
      subst hes
      exact get_logs_single fs e
  | succ k ih =>
      intro s e hk hse hnone
      have hslt : s < e := by omega
      rw [get_logs_step fs hse, hnone s (le_refl s) hslt, List.nil_append]
      exact ih (s + 1) e (by omega) (by omega) (fun d hd1 hd2 => hnone d (by omega) hd2)

theorem get_logs_all_empty (fs : LogStore) :
    ∀ (k s e : Nat), e + 1 - s = k →
      (∀ d, s ≤ d → d ≤ e → (fs d).getD [] = []) →
      get_logs_for_date_range fs s e = [] := by
  intro k
  induction k with
  | zero =>
      intro s e hk h
      exact get_logs_of_gt fs (by omega)
  | succ k ih =>
      intro s e hk h
      by_cases hse : s ≤ e
      · rw [get_logs_step fs hse, h s (le_refl s) hse, List.nil_append]
        exact ih (s + 1) e (by omega) (fun d h1 h2 => h d (by omega) h2)
      · exact get_logs_of_gt fs (by omega)

/-- C5: after the store holds entries for three days D1 < D2 < D3 (and no
other day in between), `get_logs_for_date_range D1 D3` returns the three
days' lines concatenated in date order (missing days in the inclusive
range are skipped without error), and `get_logs_for_date_range D2 D2`
returns exactly D2's lines. -/
theorem log_range_roundtrip (fs : LogStore) (D1 D2 D3 : Nat) (L1 L2 L3 : List String)
    (h12 : D1 < D2) (h23 : D2 < D3)
    (hfs : ∀ d, D1 ≤ d → d ≤ D3 →
      fs d = if d = D1 then some L1 else if d = D2 then some L2
             else if d = D3 then some L3 else none) :
    get_logs_for_date_range fs D1 D3 = L1 ++ L2 ++ L3 ∧
    get_logs_for_date_range fs D2 D2 = L2 := by
  have hD1 : fs D1 = some L1 := by
    rw [hfs D1 (le_refl D1) (by omega), if_pos rfl]
  have hD2 : fs D2 = some L2 := by
    rw [hfs D2 (by omega) (by omega), if_neg (by omega), if_pos rfl]
  have hD3 : fs D3 = some L3 := by
    rw [hfs D3 (by omega) (le_refl D3), if_neg (by omega), if_neg (by omega), if_pos rfl]
  constructor
  · have hmid : get_logs_for_date_range fs (D1 + 1) D2 = (fs D2).getD [] := by
      refine get_logs_none_upto fs (D2 - (D1 + 1)) (D1 + 1) D2 rfl (by omega) ?_
      intro d hd1 hd2
      rw [hfs d (by omega) (by omega), if_neg (by omega), if_neg (by omega),
        if_neg (by omega)]
      rfl
    have hlast : get_logs_for_date_range fs (D2 + 1) D3 = (fs D3).getD [] := by
      refine get_logs_none_upto fs (D3 - (D2 + 1)) (D2 + 1) D3 rfl (by omega) ?_
      intro d hd1 hd2
      rw [hfs d (by omega) (by omega), if_neg (by omega), if_neg (by omega),
        if_neg (by omega)]
      rfl
    rw [get_logs_split fs (le_refl D1) (show D1 ≤ D3 by omega), get_logs_single,
      get_logs_split fs (show D1 + 1 ≤ D2 by omega) (show D2 ≤ D3 by omega),
      hmid, hlast, hD1, hD2, hD3]
    simp
  · rw [get_logs_single, hD2]
    rfl

/-- Witness for C5: with entries "alpha"/"beta"/"gamma" appended for days
0, 2 and 5, the range query 0–5 returns all three in order and the range
query 2–2 returns only day 2's entry. -/
theorem log_range_roundtrip_witness :
    get_logs_for_date_range exLogStore 0 5 = ["alpha"] ++ ["beta"] ++ ["gamma"] ∧
    get_logs_for_date_range exLogStore 2 2 = ["beta"] :=
  log_range_roundtrip exLogStore 0 2 5 ["alpha"] ["beta"] ["gamma"] (by decide) (by decide)
    (by intro d h1 h2; interval_cases d <;> rfl)

/-- C7: for every date range all of whose days have no log lines (missing
or empty daily files), the range read returns the empty sequence and the
export returns False with no export file written. -/
theorem export_empty_range (fs : LogStore) (s e : Nat) (startStr endStr exportedAt : String)
    (h : ∀ d, s ≤ d → d ≤ e → (fs d).getD [] = []) :
    get_logs_for_date_range fs s e = [] ∧
    export_logs_to_file fs s e startStr endStr exportedAt = none := by
  have hrr := get_logs_all_empty fs (e + 1 - s) s e rfl h
  exact ⟨hrr, by simp [export_logs_to_file, hrr]⟩

/-- Witness for C7: exporting day 3 from a store with no writes at all
returns False and the same-range read returns the empty sequence. -/
theorem export_empty_range_witness :
    get_logs_for_date_range emptyLogStore 3 3 = [] ∧
    export_logs_to_file emptyLogStore 3 3 "2024-01-03" "2024-01-03" "ts" = none :=
  export_empty_range emptyLogStore 3 3 "2024-01-03" "2024-01-03" "ts"
    (fun _ _ _ => rfl)

/-! ## Alert engine lemmas and claim C1 -/

theorem alert_step_fired_iff (warning_temp critical_temp : ℚ) (active : Bool)
    (st : AlertState) (now max_temp : ℚ) :
    (alert_step warning_temp critical_temp active st now max_temp).2 = true ↔
      active = true ∧ (max_temp ≥ critical_temp ∨ max_temp ≥ warning_temp) ∧
        now - st.last_warning_time > st.warning_cooldown := by
  unfold alert_step
  split_ifs <;> simp_all <;> tauto

theorem alert_step_fired_state (warning_temp critical_temp : ℚ) (active : Bool)
    (st : AlertState) (now max_temp : ℚ)
    (h : (alert_step warning_temp critical_temp active st now max_temp).2 = true) :
    (alert_step warning_temp critical_temp active st now max_temp).1 =
      { st with last_warning_time := now } := by
  unfold alert_step at h ⊢
  split_ifs at h ⊢ <;> simp_all

theorem alert_spike_scenario (warning_temp critical_temp t max1 max2 max3 : ℚ)
    (st : AlertState) (hcool : st.warning_cooldown = WARNING_COOLDOWN)
    (h1 : max1 ≥ critical_temp) (h2 : max2 ≥ critical_temp) (h3 : max3 ≥ critical_temp)
    (hfirst : t - st.last_warning_time > WARNING_COOLDOWN) :
    (alert_run warning_temp critical_temp true st
      [(t, max1), (t + 10, max2), (t + 35, max3)]).2 = [true, false, true] := by
  rcases st with ⟨last, cd⟩
  simp only [WARNING_COOLDOWN] at hcool hfirst
  subst hcool
  have c2 : ¬ ((30 : ℚ) < 10) := by norm_num
  have c3 : (30 : ℚ) < 35 := by norm_num
  simp [alert_run, alert_step, h1, h2, h3, hfirst, c2, c3, add_sub_cancel_left]

/-- C1: alert side effects are cooldown-gated globally. A notification is
dispatched exactly when alert monitoring is enabled, the sampled max is ≥
the critical or the warning threshold, and the time since the shared
`last_warning_time` exceeds the 30 s cooldown; on dispatch the shared
stamp is set to the current time regardless of which class triggered, so
spikes ≥ critical at t, t+10 and t+35 notify exactly at t and t+35. -/
theorem alert_cooldown_global :
    (∀ (warning_temp critical_temp : ℚ) (active : Bool) (st : AlertState) (now max_temp : ℚ),
      (alert_step warning_temp critical_temp active st now max_temp).2 = true ↔
        active = true ∧ (max_temp ≥ critical_temp ∨ max_temp ≥ warning_temp) ∧
          now - st.last_warning_time > st.warning_cooldown) ∧
    (∀ (warning_temp critical_temp : ℚ) (active : Bool) (st : AlertState) (now max_temp : ℚ),
      (alert_step warning_temp critical_temp active st now max_temp).2 = true →
      (alert_step warning_temp critical_temp active st now max_temp).1 =
        { st with last_warning_time := now }) ∧
    (∀ (warning_temp critical_temp t max1 max2 max3 : ℚ) (st : AlertState),
      st.warning_cooldown = WARNING_COOLDOWN →
      max1 ≥ critical_temp → max2 ≥ critical_temp → max3 ≥ critical_temp →
      t - st.last_warning_time > WARNING_COOLDOWN →
      (alert_run warning_temp critical_temp true st
        [(t, max1), (t + 10, max2), (t + 35, max3)]).2 = [true, false, true]) :=
  ⟨alert_step_fired_iff, alert_step_fired_state, alert_spike_scenario⟩

/-- Witness for C1: with thresholds 27/30, cooldown 30 and three critical
spikes of 35 °C at times 100, 110 and 135, exactly the first and the third
dispatch a notification. -/
theorem alert_cooldown_global_witness :
    (alert_run 27 30 true ⟨0, WARNING_COOLDOWN⟩
      [((100 : ℚ), (35 : ℚ)), (100 + 10, 35), (100 + 35, 35)]).2 = [true, false, true] :=
  alert_cooldown_global.2.2 27 30 100 35 35 35 ⟨0, WARNING_COOLDOWN⟩ rfl
    (by norm_num) (by norm_num) (by norm_num)
    (by simp only [WARNING_COOLDOWN]; norm_num)

/-! ## Email scheduler lemmas and claims C6, C10 -/

theorem email_check_cases (st : EmailState) (now : ℚ) (hasData s : Bool)
    (h : now - st.last_email_time ≥ EMAIL_INTERVAL) :
    email_scheduler_check st now hasData s =
      (if hasData then ({ last_email_time := now, min_temp := none, max_temp := none }, true)
       else ({ last_email_time := st.last_email_time, min_temp := none,
               max_temp := none }, false)) := by
  simp [email_scheduler_check, h]

theorem email_check_skipped (st : EmailState) (now : ℚ) (hasData s : Bool)
    (h : now - st.last_email_time < EMAIL_INTERVAL) :
    email_scheduler_check st now hasData s = (st, false) := by
  simp [email_scheduler_check, not_le.mpr h]

/-- C6: at every 30-second scheduler check where the email interval has
elapsed, the digest min/max window is reset regardless of the delivery
outcome (the scheduler's behaviour does not depend on the send result at
all), and after a send attempt with data present `last_email_time`
advances to the check time, so no further send is attempted before the
interval elapses again. -/
theorem email_digest_reset_and_no_retry (st : EmailState) (now : ℚ) (hasData s : Bool)
    (h : now - st.last_email_time ≥ EMAIL_INTERVAL) :
    (email_scheduler_check st now hasData s).1.min_temp = none ∧
    (email_scheduler_check st now hasData s).1.max_temp = none ∧
    email_scheduler_check st now hasData s = email_scheduler_check st now hasData (!s) ∧
    (hasData = true →
      (email_scheduler_check st now hasData s).1.last_email_time = now ∧
      ∀ (nxt : ℚ) (hasData' s' : Bool), nxt - now < EMAIL_INTERVAL →
        (email_scheduler_check (email_scheduler_check st now hasData s).1 nxt hasData' s').2
          = false) := by
  rw [email_check_cases st now hasData s h, email_check_cases st now hasData (!s) h]
  cases hasData with
  | false => simp
  | true =>
      simp only [if_pos rfl]
      refine ⟨by trivial, by trivial, by trivial, fun _ => ⟨by trivial, ?_⟩⟩
      intro nxt hasData' s' hn
      rw [email_check_skipped _ nxt hasData' s' hn]

/-- Witness for C6: with the last send at time 0 and a check at 3600 with
data present, the window is reset, `last_email_time` moves to 3600, and a
follow-up check at 3630 attempts no send. -/
theorem email_digest_reset_and_no_retry_witness :
    (email_scheduler_check ⟨0, some 20, some 25⟩ 3600 true false).1.min_temp = none ∧
    (email_scheduler_check ⟨0, some 20, some 25⟩ 3600 true false).1.last_email_time = 3600 ∧
    (email_scheduler_check
      (email_scheduler_check ⟨0, some 20, some 25⟩ 3600 true false).1 3630 true true).2
        = false := by
  have h := email_digest_reset_and_no_retry ⟨0, some 20, some 25⟩ 3600 true false
    (by simp only [EMAIL_INTERVAL]; norm_num)
  exact ⟨h.1, (h.2.2.2 rfl).1, (h.2.2.2 rfl).2 3630 true true
    (by simp only [EMAIL_INTERVAL]; norm_num)⟩

/-- C10: at an elapsed-interval check with no data, no send is attempted
and `last_email_time` stays put while the digest window is still reset;
hence every later no-data check keeps resetting the window without
sending, and the first later check with data attempts a send at once. -/
theorem email_no_data_skips_send (st : EmailState) (now : ℚ) (s : Bool)
    (h : now - st.last_email_time ≥ EMAIL_INTERVAL) :
    (email_scheduler_check st now false s).2 = false ∧
    (email_scheduler_check st now false s).1.last_email_time = st.last_email_time ∧
    (email_scheduler_check st now false s).1.min_temp = none ∧
    (email_scheduler_check st now false s).1.max_temp = none ∧
    ∀ (nxt : ℚ) (s' : Bool), now ≤ nxt →
      (email_scheduler_check (email_scheduler_check st now false s).1 nxt false s').2 = false ∧
      (email_scheduler_check (email_scheduler_check st now false s).1 nxt false s').1.min_temp
        = none ∧
      (email_scheduler_check
        (email_scheduler_check st now false s).1 nxt false s').1.last_email_time
          = st.last_email_time ∧
      (email_scheduler_check (email_scheduler_check st now false s).1 nxt true s').2 = true := by
  rw [email_check_cases st now false s h]
  simp only [if_neg Bool.false_ne_true]
  refine ⟨by trivial, by trivial, by trivial, by trivial, ?_⟩
  intro nxt s' hle
  have helapsed : nxt - st.last_email_time ≥ EMAIL_INTERVAL :=
    le_trans h (sub_le_sub_right hle st.last_email_time)
  rw [email_check_cases ⟨st.last_email_time, none, none⟩ nxt false s' helapsed,
    email_check_cases ⟨st.last_email_time, none, none⟩ nxt true s' helapsed]
  simp

/-- Witness for C10: last send at 0, an elapsed check at 3600 with no data
sends nothing and keeps `last_email_time = 0`, and a later check at 7200
with data present sends immediately. -/
theorem email_no_data_skips_send_witness :
    (email_scheduler_check ⟨0, some 20, some 25⟩ 3600 false false).2 = false ∧
    (email_scheduler_check ⟨0, some 20, some 25⟩ 3600 false false).1.last_email_time = 0 ∧
    (email_scheduler_check
      (email_scheduler_check ⟨0, some 20, some 25⟩ 3600 false false).1 7200 true true).2
        = true := by
  have h := email_no_data_skips_send ⟨0, some 20, some 25⟩ 3600 false
    (by simp only [EMAIL_INTERVAL]; norm_num)
  exact ⟨h.1, h.2.1, (h.2.2.2.2 7200 true (by norm_num)).2.2.2⟩

/-! ## Dict lemmas for the sensor provider (claims C2, C9, C8) -/

theorem mem_dictInsert {d : List (String × ℚ)} {k k' : String} {v v' : ℚ}
    (h : (k, v) ∈ dictInsert d k' v') : (k = k' ∧ v = v') ∨ (k, v) ∈ d := by
  induction d with
  | nil =>
      simp only [dictInsert, List.mem_singleton, Prod.mk.injEq] at h
      exact Or.inl h
  | cons p rest ih =>
      obtain ⟨pk, pv⟩ := p
      simp only [dictInsert] at h
      by_cases hpk : pk = k'
      · rw [if_pos hpk] at h
        rcases List.mem_cons.mp h with h1 | h1
        · exact Or.inl (by simpa [Prod.mk.injEq] using h1)
        · exact Or.inr (List.mem_cons_of_mem _ h1)
      · rw [if_neg hpk] at h
        rcases List.mem_cons.mp h with h1 | h1
        · exact Or.inr (by rw [h1]; exact List.mem_cons_self _ _)
        · rcases ih h1 with h2 | h2
          · exact Or.inl h2
          · exact Or.inr (List.mem_cons_of_mem _ h2)

theorem mem_primary_fold (l : List TempSensor) :
    ∀ (d0 : List (String × ℚ)) (k : String) (v : ℚ),
      (k, v) ∈ l.foldl
        (fun d s => dictInsert d (device_name_of s) (s.value - PRIMARY_CALIBRATION)) d0 →
      (k, v) ∈ d0 ∨ ∃ s ∈ l, k = device_name_of s ∧ v = s.value - PRIMARY_CALIBRATION := by
  induction l with
  | nil =>
      intro d0 k v h
      exact Or.inl h
  | cons s rest ih =>
      intro d0 k v h
      rw [List.foldl_cons] at h
      rcases ih _ k v h with h1 | ⟨s', hs', hk, hv⟩
      · rcases mem_dictInsert h1 with ⟨hk, hv⟩ | h2
        · exact Or.inr ⟨s, List.mem_cons_self _ _, hk, hv⟩
        · exact Or.inl h2
      · exact Or.inr ⟨s', List.mem_cons_of_mem _ hs', hk, hv⟩

theorem mem_alt_fold (devices : List String) (l : List WmiSensor) :
    ∀ (d0 : List (String × ℚ)) (k : String) (v : ℚ),
      (k, v) ∈ l.foldl
        (fun d s =>
          match s.value, s.parent with
          | some w, some p =>
              if s.sensorType = "Temperature" ∧ p ∈ devices then
                dictInsert d p (w - FALLBACK_CALIBRATION)
              else d
          | _, _ => d) d0 →
      (k, v) ∈ d0 ∨ ∃ s ∈ l, s.sensorType = "Temperature" ∧ s.parent = some k ∧
        k ∈ devices ∧ ∃ raw, s.value = some raw ∧ v = raw - FALLBACK_CALIBRATION := by
  induction l with
  | nil =>
      intro d0 k v h
      exact Or.inl h
  | cons s rest ih =>
      intro d0 k v h
      rw [List.foldl_cons] at h
      rcases ih _ k v h with h1 | ⟨s', hs', h2⟩
      · rcases hval : s.value with _ | raw <;> rcases hpar : s.parent with _ | p <;>
          simp only [hval, hpar] at h1
        · exact Or.inl h1
        · exact Or.inl h1
        · exact Or.inl h1
        · by_cases hcond : s.sensorType = "Temperature" ∧ p ∈ devices
          · rw [if_pos hcond] at h1
            rcases mem_dictInsert h1 with ⟨hk, hv⟩ | h3
            · subst hk
              exact Or.inr ⟨s, List.mem_cons_self _ _, hcond.1, hpar, hcond.2, raw, hval, hv⟩
            · exact Or.inl h3
          · rw [if_neg hcond] at h1
            exact Or.inl h1
      · exact Or.inr ⟨s', List.mem_cons_of_mem _ hs', h2⟩

/-- C2: every adjusted value produced by the primary path is its sensor's
raw value minus the single primary constant (13 °C), every adjusted value
produced by the alternative fallback path is its sensor's raw value minus
the single fallback constant (10 °C), and the two constants differ. -/
theorem calibration_uniform_per_path :
    (∀ (sensors : List WmiSensor) (k : String) (v : ℚ),
      (k, v) ∈ primary_storage_temps sensors →
      ∃ s ∈ storage_sensors sensors, k = device_name_of s ∧
        v = s.value - PRIMARY_CALIBRATION) ∧
    (∀ (sensors : List WmiSensor) (hardware : List String) (d : List (String × ℚ))
        (k : String) (v : ℚ),
      find_storage_temps_alternative sensors hardware = some d → (k, v) ∈ d →
      ∃ s ∈ sensors, s.sensorType = "Temperature" ∧ s.parent = some k ∧
        ∃ raw, s.value = some raw ∧ v = raw - FALLBACK_CALIBRATION) ∧
    PRIMARY_CALIBRATION ≠ FALLBACK_CALIBRATION := by
  refine ⟨?_, ?_, by norm_num [PRIMARY_CALIBRATION, FALLBACK_CALIBRATION]⟩
  · intro sensors k v h
    rcases mem_primary_fold (storage_sensors sensors) [] k v h with h1 | h1
    · simp at h1
    · exact h1
  · intro sensors hardware d k v hd hm
    simp only [find_storage_temps_alternative] at hd
    split_ifs at hd with he
    · rw [Option.some_inj] at hd
      subst hd
      rcases mem_alt_fold (alt_storage_devices hardware) sensors [] k v hm with
        h1 | ⟨s, hs, ht, hp, _, raw, hraw, hv⟩
      · simp at h1
      · exact ⟨s, hs, ht, hp, raw, hraw, hv⟩

/-- The primary filter keeps exactly the three example sensors. -/
theorem example_storage_sensors :
    storage_sensors exampleSensors =
      [{ name := "HDD Temperature", value := 38, parent := "A" },
       { name := "HDD Temperature", value := 44, parent := "B" },
       { name := "HDD Temperature", value := 41, parent := "C" }] := by
  rfl

/-- The primary dict of the example sample. -/
theorem example_primary :
    primary_storage_temps exampleSensors = [("A", 25), ("B", 31), ("C", 28)] := by
  rw [primary_storage_temps, example_storage_sensors]
  norm_num [dictInsert, device_name_of, PRIMARY_CALIBRATION]
  decide

/-- The sample of the example sensors. -/
theorem example_sample :
    get_storage_temperatures true exampleSensors [] =
      some [("A", 25), ("B", 31), ("C", 28)] := by
  rw [get_storage_temperatures]
  simp [example_primary]

/-- Witness for C2: the reading 25 °C reported for device A in the example
sample is the raw 38 °C of one matched sensor minus the primary constant. -/
theorem calibration_uniform_per_path_witness :
    ∃ s ∈ storage_sensors exampleSensors, "A" = device_name_of s ∧
      (25 : ℚ) = s.value - PRIMARY_CALIBRATION :=
  calibration_uniform_per_path.1 exampleSensors "A" 25
    (by rw [example_primary]; exact List.mem_cons_self _ _)

/-! ## Last-write-wins lemmas and claim C9 -/

theorem dictLookup_dictInsert_self (d : List (String × ℚ)) (k : String) (v : ℚ) :
    dictLookup (dictInsert d k v) k = some v := by
  induction d with
  | nil => simp [dictInsert, dictLookup]
  | cons p rest ih =>
      obtain ⟨pk, pv⟩ := p
      by_cases h : pk = k
      · simp [dictInsert, dictLookup, h]
      · simp [dictInsert, dictLookup, h, ih]

theorem dictLookup_dictInsert_ne (d : List (String × ℚ)) (k : String) (v : ℚ)
    (k' : String) (h : k ≠ k') :
    dictLookup (dictInsert d k v) k' = dictLookup d k' := by
  induction d with
  | nil => simp [dictInsert, dictLookup, h]
  | cons p rest ih =>
      obtain ⟨pk, pv⟩ := p
      by_cases h1 : pk = k
      · subst h1
        simp [dictInsert, dictLookup, h]
      · by_cases h2 : pk = k'
        · subst h2
          simp [dictInsert, dictLookup, h1, Ne.symm h]
        · simp [dictInsert, dictLookup, h1, h2, ih]

theorem dictLookup_primary_fold (l : List TempSensor) :
    ∀ (d0 : List (String × ℚ)) (k : String),
      dictLookup (l.foldl
        (fun d s => dictInsert d (device_name_of s) (s.value - PRIMARY_CALIBRATION)) d0) k =
      ((l.reverse.find? (fun s => device_name_of s == k)).map
        (fun s => s.value - PRIMARY_CALIBRATION)).or (dictLookup d0 k) := by
  induction l with
  | nil =>
      intro d0 k
      simp
  | cons s rest ih =>
      intro d0 k
      rw [List.foldl_cons, ih, List.reverse_cons, List.find?_append]
      cases hf : rest.reverse.find? (fun s => device_name_of s == k) with
      | some s' => simp [Option.or]
      | none =>
          by_cases hk : device_name_of s = k
          · simp [Option.or, hk, dictLookup_dictInsert_self]
          · simp [Option.or, hk, dictLookup_dictInsert_ne _ _ _ _ (fun hne => hk hne)]

theorem dictKeys_dictInsert (d : List (String × ℚ)) (k : String) (v : ℚ) :
    dictKeys (dictInsert d k v) =
      if k ∈ dictKeys d then dictKeys d else dictKeys d ++ [k] := by
  induction d with
  | nil => simp [dictInsert, dictKeys]
  | cons p rest ih =>
      obtain ⟨pk, pv⟩ := p
      by_cases h : pk = k
      · subst h
        simp [dictInsert, dictKeys]
      · rw [show dictInsert ((pk, pv) :: rest) k v = (pk, pv) :: dictInsert rest k v from by
          simp [dictInsert, h]]
        rw [show dictKeys ((pk, pv) :: dictInsert rest k v)
            = pk :: dictKeys (dictInsert rest k v) from rfl]
        rw [ih, show dictKeys ((pk, pv) :: rest) = pk :: dictKeys rest from rfl]
        by_cases h2 : k ∈ dictKeys rest
        · rw [if_pos h2, if_pos (List.mem_cons_of_mem _ h2)]
        · rw [if_neg h2, if_neg (by
            simp only [List.mem_cons]
            rintro (hh | hh)
            · exact h hh.symm
            · exact h2 hh)]
          rfl

theorem nodup_dictKeys_dictInsert {d : List (String × ℚ)} (hd : (dictKeys d).Nodup)
    (k : String) (v : ℚ) : (dictKeys (dictInsert d k v)).Nodup := by
  rw [dictKeys_dictInsert]
  by_cases h : k ∈ dictKeys d
  · simpa [h] using hd
  · rw [if_neg h]
    exact hd.append (List.nodup_singleton k) (by simpa using h)

theorem nodup_keys_primary_fold (l : List TempSensor) :
    ∀ (d0 : List (String × ℚ)), (dictKeys d0).Nodup →
      (dictKeys (l.foldl
        (fun d s => dictInsert d (device_name_of s) (s.value - PRIMARY_CALIBRATION)) d0)).Nodup := by
  induction l with
  | nil =>
      intro d0 h
      exact h
  | cons s rest ih =>
      intro d0 h
      rw [List.foldl_cons]
      exact ih _ (nodup_dictKeys_dictInsert h _ _)

/-- C9: when several matched sensors resolve to the same device key, the
primary per-device mapping keeps one entry per key holding the adjusted
value of the last such sensor in enumeration order, and its keys are
pairwise distinct — so the derived queries range over device names. -/
theorem duplicate_device_last_write_wins (sensors : List WmiSensor) (k : String) :
    dictLookup (primary_storage_temps sensors) k =
      ((storage_sensors sensors).reverse.find? (fun s => device_name_of s == k)).map
        (fun s => s.value - PRIMARY_CALIBRATION) ∧
    (dictKeys (primary_storage_temps sensors)).Nodup := by
  constructor
  · rw [primary_storage_temps, dictLookup_primary_fold]
    cases hf : (storage_sensors sensors).reverse.find? (fun s => device_name_of s == k) <;>
      simp [Option.or, dictLookup]
  · exact nodup_keys_primary_fold _ [] (by simp [dictKeys])

/-! ## Average/max query lemmas and claim C8 -/

theorem find_alt_ne_nil {sensors : List WmiSensor} {hardware : List String}
    {d : List (String × ℚ)}
    (h : find_storage_temps_alternative sensors hardware = some d) : d ≠ [] := by
  simp only [find_storage_temps_alternative] at h
  split_ifs at h with he
  · rw [Option.some_inj] at h
    subst h
    intro hnil
    rw [hnil] at he
    simp at he

theorem get_storage_temperatures_ne_nil {ohm : Bool} {sensors : List WmiSensor}
    {hardware : List String} {d : List (String × ℚ)}
    (h : get_storage_temperatures ohm sensors hardware = some d) : d ≠ [] := by
  simp only [get_storage_temperatures] at h
  split_ifs at h with h1 h2
  · rw [Option.some_inj] at h
    subst h
    intro hnil
    rw [hnil] at h2
    simp at h2
  · exact find_alt_ne_nil h

theorem foldl_max_spec (t : List (String × ℚ)) :
    ∀ (p : String × ℚ),
      t.foldl (fun best q => if best.2 < q.2 then q else best) p ∈ p :: t ∧
      (t.foldl (fun best q => if best.2 < q.2 then q else best) p).2 =
        t.foldl (fun m q => max m q.2) p.2 ∧
      ∀ q ∈ p :: t, q.2 ≤ (t.foldl (fun best q => if best.2 < q.2 then q else best) p).2 := by
  induction t with
  | nil =>
      intro p
      refine ⟨List.mem_cons_self _ _, rfl, ?_⟩
      intro q hq
      rw [List.mem_singleton] at hq
      subst hq
      exact le_refl _
  | cons a t ih =>
      intro p
      simp only [List.foldl_cons]
      obtain ⟨hmem, hsnd, hbound⟩ := ih (if p.2 < a.2 then a else p)
      have hstep : (if p.2 < a.2 then a else p).2 = max p.2 a.2 := by
        by_cases hpa : p.2 < a.2
        · rw [if_pos hpa, max_eq_right (le_of_lt hpa)]
        · rw [if_neg hpa, max_eq_left (not_lt.mp hpa)]
      refine ⟨?_, ?_, ?_⟩
      · rcases List.mem_cons.mp hmem with h | h
        · rw [h]
          by_cases hpa : p.2 < a.2
          · rw [if_pos hpa]
            exact List.mem_cons_of_mem _ (List.mem_cons_self _ _)
          · rw [if_neg hpa]
            exact List.mem_cons_self _ _
        · exact List.mem_cons_of_mem _ (List.mem_cons_of_mem _ h)
      · rw [hsnd, hstep]
      · intro q hq
        have hhead := hbound _ (List.mem_cons_self (if p.2 < a.2 then a else p) t)
        rcases List.mem_cons.mp hq with h | h
        · subst h
          refine le_trans ?_ hhead
          rw [hstep]
          exact le_max_left _ _
        · rcases List.mem_cons.mp h with h' | h'
          · subst h'
            refine le_trans ?_ hhead
            rw [hstep]
            exact le_max_right _ _
          · exact hbound q (List.mem_cons_of_mem _ h')

/-- C8: on every sample that yields a per-device mapping, the average
query returns the arithmetic mean of the adjusted values, the max query
returns the largest adjusted value, and the hottest device is a device
whose adjusted value equals that maximum; the spec's worked example
{A 25, B 31, C 28} gives average 28, max 31, hottest B; and a sample with
no readings makes both queries return None. -/
theorem average_max_queries :
    (∀ (ohm : Bool) (sensors : List WmiSensor) (hardware : List String)
        (d : List (String × ℚ)),
      get_storage_temperatures ohm sensors hardware = some d →
      d ≠ [] ∧
      get_average_storage_temperature ohm sensors hardware
        = some (dictValuesSum d / d.length) ∧
      ∃ m k, get_max_storage_temperature ohm sensors hardware = some m ∧
        get_max_storage_device ohm sensors hardware = some k ∧
        (k, m) ∈ d ∧ ∀ p ∈ d, p.2 ≤ m) ∧
    (∀ (ohm : Bool) (sensors : List WmiSensor) (hardware : List String),
      get_storage_temperatures ohm sensors hardware = none →
      get_average_storage_temperature ohm sensors hardware = none ∧
      get_max_storage_temperature ohm sensors hardware = none ∧
      get_max_storage_device ohm sensors hardware = none) ∧
    (get_average_storage_temperature true exampleSensors [] = some 28 ∧
     get_max_storage_temperature true exampleSensors [] = some 31 ∧
     get_max_storage_device true exampleSensors [] = some "B") := by
  refine ⟨?_, ?_, ?_, ?_, ?_⟩
  · intro ohm sensors hardware d h
    have hne := get_storage_temperatures_ne_nil h
    refine ⟨hne, ?_, ?_⟩
    · simp only [get_average_storage_temperature, h]
      rw [if_neg (by simpa using hne)]
    · obtain ⟨p, rest, rfl⟩ : ∃ p rest, d = p :: rest := by
        cases d with
        | nil => exact absurd rfl hne
        | cons p rest => exact ⟨p, rest, rfl⟩
      obtain ⟨hmem, hsnd, hbound⟩ := foldl_max_spec rest p
      refine ⟨rest.foldl (fun m q => max m q.2) p.2,
        (rest.foldl (fun best q => if best.2 < q.2 then q else best) p).1, ?_, ?_, ?_, ?_⟩
      · simp only [get_max_storage_temperature, h]
        rw [if_neg (by simp)]
        rfl
      · simp only [get_max_storage_device, h]
        rw [if_neg (by simp)]
        rfl
      · rw [← hsnd]
        simpa using hmem
      · intro q hq
        rw [← hsnd]
        exact hbound q hq
  · intro ohm sensors hardware h
    refine ⟨?_, ?_, ?_⟩ <;>
      simp [get_average_storage_temperature, get_max_storage_temperature,
        get_max_storage_device, h]
  · simp only [get_average_storage_temperature, example_sample]
    rw [if_neg (by simp)]
    norm_num [dictValuesSum]
  · simp only [get_max_storage_temperature, example_sample]
    rw [if_neg (by simp)]
    simp only [dictValuesMax, List.foldl_cons, List.foldl_nil]
    norm_num [max_def]
  · simp only [get_max_storage_device, example_sample]
    rfl

/-- Witness for C8: the general query theorem applied to the concrete
example sample of devices A/B/C. -/
theorem average_max_queries_witness :
    ([("A", (25 : ℚ)), ("B", 31), ("C", 28)] : List (String × ℚ)) ≠ [] ∧
    get_average_storage_temperature true exampleSensors []
      = some (dictValuesSum [("A", 25), ("B", 31), ("C", 28)]
          / ([("A", (25 : ℚ)), ("B", 31), ("C", 28)] : List (String × ℚ)).length) ∧
    ∃ m k, get_max_storage_temperature true exampleSensors [] = some m ∧
      get_max_storage_device true exampleSensors [] = some k ∧
      (k, m) ∈ ([("A", (25 : ℚ)), ("B", 31), ("C", 28)] : List (String × ℚ)) ∧
      ∀ p ∈ ([("A", (25 : ℚ)), ("B", 31), ("C", 28)] : List (String × ℚ)), p.2 ≤ m :=
  average_max_queries.1 true exampleSensors [] [("A", 25), ("B", 31), ("C", 28)] example_sample

end TempMonitor
